import Mathlib

/-!
Shallow embedding of the Cartesian velocity controller in
src/2 Cartesian Control/velocity_pid.cpp (classes
CartesianVelocityControllerPIDBase, CartesianVelocityControllerPID and
CartesianVelocityControllerPIDSim), together with theorems settling the
spec claims about it.

Real-valued quantities (doubles, ros Time and Duration) are modelled as
rationals; per-joint arrays (KDL JntArray) as functions Fin n → ℚ.
-/

set_option autoImplicit false

namespace UR5e

/-- A Cartesian twist, as KDL Twist: 3 linear components (vel) and 3 angular
components (rot). -/
structure Twist where
  vel : Fin 3 → ℚ
  rot : Fin 3 → ℚ
  deriving DecidableEq

/-- KDL Twist.Zero: the all-zero twist. -/
def Twist.Zero : Twist := ⟨fun _ => 0, fun _ => 0⟩

/-- Components of a twist in the order linear x, y, z then angular x, y, z
(the order the subscriber callback assigns them, lines 109-114). -/
def Twist.comp (t : Twist) (k : Fin 6) : ℚ :=
  if h : (k : ℕ) < 3 then t.vel ⟨k, h⟩
  else t.rot ⟨(k : ℕ) - 3, by omega⟩

/-- Overwrite one component of a twist, in the same component order. -/
def Twist.setComp (t : Twist) (k : Fin 6) (v : ℚ) : Twist :=
  if h : (k : ℕ) < 3 then { t with vel := Function.update t.vel ⟨k, h⟩ v }
  else { t with rot := Function.update t.rot ⟨(k : ℕ) - 3, by omega⟩ v }

/-- A per-joint array of scalars (KDL JntArray of the chain joint count). -/
abbrev JntArray (n : ℕ) : Type := Fin n → ℚ

/-- An inverse velocity solver: from the measured joint positions and the
desired Cartesian twist to a return status (the int CartToJnt returns) and
the solved joint-velocity vector. -/
abbrev IkVelSolver (n : ℕ) : Type := JntArray n → Twist → Int × JntArray n

/-- Modelled from the spec: KDL ChainIkSolverVel_pinv_givens is not under
src/ (only its call site is). Per spec 4.3 and 8.2 the solve is, at a fixed
joint configuration, the linear least-squares (damped pseudo-inverse) map
from the desired twist to the joint-velocity vector; it is modelled as an
arbitrary configuration-dependent matrix pinv applied linearly to the
twist, with return status 0 (no error is raised, spec 4.3). -/
def ChainIkSolverVel_pinv_givens {n : ℕ}
    (pinv : JntArray n → Fin n → Fin 6 → ℚ) : IkVelSolver n :=
  fun q xdot => (0, fun i => ∑ j : Fin 6, pinv q i j * xdot.comp j)

/-- A command writer: from the measured joint positions, the solved
joint-velocity command and the cycle period to the per-joint values written
to the actuator interface (the virtual writeVelocityCommands). -/
abbrev CommandWriter (n : ℕ) : Type := JntArray n → JntArray n → ℚ → JntArray n

/-- CartesianVelocityControllerPID.writeVelocityCommands (lines 122-127):
writes each joint's solved velocity unchanged to the velocity interface. -/
def writeVelocityCommandsPID {n : ℕ} : CommandWriter n :=
  fun _q q_dt_cmd _period => fun i => q_dt_cmd i

/-- CartesianVelocityControllerPIDSim.writeVelocityCommands (lines 133-139):
writes joint_msr_.q(i) + q_dt_cmd_(i) * period.toSec() to the position
interface. -/
def writeVelocityCommandsPIDSim {n : ℕ} : CommandWriter n :=
  fun q q_dt_cmd period => fun i => q i + q_dt_cmd i * period

/-- The persistent controller state mutated across lifecycle hooks and
cycles: the joint-velocity command buffer q_dt_cmd_, the desired Cartesian
twist x_dt_des_, the publish gate last_publish_time_ and the configured
publish_rate_. -/
structure CtrlState (n : ℕ) where
  q_dt_cmd : JntArray n
  x_dt_des : Twist
  last_publish_time : ℚ
  publish_rate : ℚ

/-- The per-cycle inputs of update: the current time, the cycle period, the
sensed joint positions and velocities read from the joint handles, and
whether the realtime publisher trylock would succeed this cycle (the
publish channel is free). -/
structure CycleInput (n : ℕ) where
  time : ℚ
  period : ℚ
  q : JntArray n
  qdot : JntArray n
  trylock_ok : Bool

/-- The observable outcome of one update call: the new controller state,
the per-joint values written to the actuator interface, whether the gate
condition passed (a publish was attempted via trylock), and whether a
telemetry message was actually published. -/
structure CycleOutput (n : ℕ) where
  state : CtrlState n
  commands : JntArray n
  attempted : Bool
  published : Bool

/-- CartesianVelocityControllerPIDBase.init (lines 12-45): if the
publish_rate parameter is absent, log an error and return false (modelled
as none); otherwise size the buffers, zero the desired twist and succeed
with the initial state. -/
def init (n : ℕ) (publish_rate_param : Option ℚ) : Option (CtrlState n) :=
  match publish_rate_param with
  | none => none
  | some r =>
      some { q_dt_cmd := fun _ => 0
             x_dt_des := Twist.Zero
             last_publish_time := 0
             publish_rate := r }

/-- CartesianVelocityControllerPIDBase.starting (lines 53-59): zero every
entry of q_dt_cmd_, reset x_dt_des_ to the zero twist and set
last_publish_time_ to the given time. -/
def starting {n : ℕ} (s : CtrlState n) (time : ℚ) : CtrlState n :=
  { s with q_dt_cmd := fun _ => 0
           x_dt_des := Twist.Zero
           last_publish_time := time }

/-- CartesianVelocityControllerPIDBase.update (lines 65-101): read the
joint state, run the inverse velocity solve (discarding its return
status), write the command via the virtual writeVelocityCommands, run the
forward solves (telemetry content, not tracked here), and attempt a
rate-limited non-blocking publish: only when publish_rate_ > 0 and
last_publish_time_ + 1/publish_rate_ < time, and only if trylock succeeds,
advance last_publish_time_ by exactly 1/publish_rate_ and publish. -/
def update {n : ℕ} (solver : IkVelSolver n) (writer : CommandWriter n)
    (s : CtrlState n) (inp : CycleInput n) : CycleOutput n :=
  let q_dt_cmd := (solver inp.q s.x_dt_des).2
  let commands := writer inp.q q_dt_cmd inp.period
  if 0 < s.publish_rate ∧ s.last_publish_time + 1 / s.publish_rate < inp.time then
    if inp.trylock_ok then
      { state := { s with q_dt_cmd := q_dt_cmd
                          last_publish_time := s.last_publish_time + 1 / s.publish_rate }
        commands := commands
        attempted := true
        published := true }
    else
      { state := { s with q_dt_cmd := q_dt_cmd }
        commands := commands
        attempted := true
        published := false }
  else
    { state := { s with q_dt_cmd := q_dt_cmd }
      commands := commands
      attempted := false
      published := false }

/-- One single-component assignment of the subscriber callback body
(lines 109-114): copy component k of the message into the stored twist. -/
def cmdWriteStep (msg : Twist) (k : Fin 6) (tw : Twist) : Twist :=
  tw.setComp k (msg.comp k)

/-- CartesianVelocityControllerPIDBase.command_cart_vel (lines 107-115):
the callback copies the six message components into x_dt_des_ one
assignment at a time, linear x, y, z then angular x, y, z. -/
def command_cart_vel (msg : Twist) (tw : Twist) : Twist :=
  (List.finRange 6).foldl (fun t k => cmdWriteStep msg k t) tw

/-- The stored twist after only the first k of the six component
assignments of command_cart_vel have executed: what a control-cycle read
interleaved after k assignments observes. -/
def command_cart_vel_firstK (msg : Twist) (k : ℕ) (tw : Twist) : Twist :=
  ((List.finRange 6).take k).foldl (fun t j => cmdWriteStep msg j t) tw

/-! ### Helper lemmas shared by the claim theorems -/

theorem Twist.comp_Zero (k : Fin 6) : Twist.Zero.comp k = 0 := by
  unfold Twist.Zero Twist.comp
  split <;> rfl

theorem ik_pinv_zero_twist {n : ℕ} (pinv : JntArray n → Fin n → Fin 6 → ℚ)
    (q : JntArray n) :
    (ChainIkSolverVel_pinv_givens pinv q Twist.Zero).2 = fun _ => 0 := by
  funext i
  simp [ChainIkSolverVel_pinv_givens, Twist.comp_Zero]

theorem update_state_x_dt_des {n : ℕ} (solver : IkVelSolver n)
    (writer : CommandWriter n) (s : CtrlState n) (inp : CycleInput n) :
    (update solver writer s inp).state.x_dt_des = s.x_dt_des := by
  unfold update
  dsimp only
  split
  · split <;> rfl
  · rfl

theorem update_state_publish_rate {n : ℕ} (solver : IkVelSolver n)
    (writer : CommandWriter n) (s : CtrlState n) (inp : CycleInput n) :
    (update solver writer s inp).state.publish_rate = s.publish_rate := by
  unfold update
  dsimp only
  split
  · split <;> rfl
  · rfl

theorem update_state_q_dt_cmd {n : ℕ} (solver : IkVelSolver n)
    (writer : CommandWriter n) (s : CtrlState n) (inp : CycleInput n) :
    (update solver writer s inp).state.q_dt_cmd = (solver inp.q s.x_dt_des).2 := by
  unfold update
  dsimp only
  split
  · split <;> rfl
  · rfl

theorem update_commands {n : ℕ} (solver : IkVelSolver n)
    (writer : CommandWriter n) (s : CtrlState n) (inp : CycleInput n) :
    (update solver writer s inp).commands
      = writer inp.q (solver inp.q s.x_dt_des).2 inp.period := by
  unfold update
  dsimp only
  split
  · split <;> rfl
  · rfl

theorem update_attempted_iff {n : ℕ} (solver : IkVelSolver n)
    (writer : CommandWriter n) (s : CtrlState n) (inp : CycleInput n) :
    (update solver writer s inp).attempted = true ↔
      0 < s.publish_rate ∧ s.last_publish_time + 1 / s.publish_rate < inp.time := by
  unfold update
  dsimp only
  split
  next h => constructor <;> intro _ <;> first | exact h | split <;> rfl
  next h => simp only [Bool.false_eq_true, false_iff]; exact h

/-! ### Claim theorems -/

/-- C2: the direct-velocity writer outputs each solved joint velocity
unchanged and is independent of the cycle period, while the
integrated-position writer outputs current position plus commanded
velocity times the cycle period; at period 0 the latter outputs exactly
the sensed positions. -/
theorem writeVelocityCommands_semantics :
    ∀ (n : ℕ) (q q_dt_cmd : JntArray n) (period : ℚ),
    (writeVelocityCommandsPID q q_dt_cmd period = q_dt_cmd) ∧
    (∀ period2 : ℚ, writeVelocityCommandsPID q q_dt_cmd period
        = writeVelocityCommandsPID q q_dt_cmd period2) ∧
    (∀ i, writeVelocityCommandsPIDSim q q_dt_cmd period i = q i + q_dt_cmd i * period) ∧
    (writeVelocityCommandsPIDSim q q_dt_cmd 0 = q) := by
  intro n q cmd p
  refine ⟨rfl, fun _ => rfl, fun i => rfl, ?_⟩
  funext i
  simp [writeVelocityCommandsPIDSim]

/-- C7: when the publish_rate configuration option is absent, init fails
(returns none, preventing activation); when it is present with any value,
init succeeds and records that value, so its absence never surfaces later. -/
theorem init_publish_rate_required : ∀ (n : ℕ),
    (init n none = none) ∧
    ∀ (r : ℚ), ∃ s0 : CtrlState n, init n (some r) = some s0 ∧ s0.publish_rate = r := by
  exact fun n => ⟨rfl, fun r => ⟨_, rfl, rfl⟩⟩

/-- C9: the return status of the inverse velocity solve never influences
the cycle outcome (two solvers agreeing on the solved vector but with any
differing statuses yield identical cycle results), and the command is
written to the actuator interface unconditionally, from the solved vector
alone. -/
theorem update_discards_solver_status :
    ∀ (n : ℕ) (err err2 : JntArray n → Twist → Int)
      (sol : JntArray n → Twist → JntArray n) (writer : CommandWriter n)
      (s : CtrlState n) (inp : CycleInput n),
    (update (fun q tw => (err q tw, sol q tw)) writer s inp
      = update (fun q tw => (err2 q tw, sol q tw)) writer s inp) ∧
    (update (fun q tw => (err q tw, sol q tw)) writer s inp).commands
      = writer inp.q (sol inp.q s.x_dt_des) inp.period := by
  intro n err err2 sol writer s inp
  exact ⟨rfl, update_commands _ writer s inp⟩

/-- C10: the control cycle never modifies the desired Cartesian twist:
over any sequence of update calls the stored twist is exactly the one
latched before the first call, until a callback or starting rewrites it. -/
theorem update_never_writes_x_dt_des :
    ∀ (n : ℕ) (solver : IkVelSolver n) (writer : CommandWriter n)
      (s : CtrlState n) (inps : List (CycleInput n)),
    (inps.foldl (fun st inp => (update solver writer st inp).state) s).x_dt_des
      = s.x_dt_des := by
  intro n solver writer s inps
  induction inps generalizing s with
  | nil => rfl
  | cons a l ih =>
      rw [List.foldl_cons, ih, update_state_x_dt_des]

/-- C1: for every chain configuration (hence every pseudo-inverse matrix
the solver derives from it), when the stored desired twist is the zero
twist, the inverse velocity solve performed by the control cycle leaves an
all-zero joint-velocity command vector. -/
theorem zero_twist_yields_zero_command :
    ∀ (n : ℕ) (pinv : JntArray n → Fin n → Fin 6 → ℚ) (writer : CommandWriter n)
      (s : CtrlState n) (inp : CycleInput n),
    s.x_dt_des = Twist.Zero →
    (update (ChainIkSolverVel_pinv_givens pinv) writer s inp).state.q_dt_cmd
      = fun _ => 0 := by
  intro n pinv writer s inp h
  rw [update_state_q_dt_cmd, h]
  exact ik_pinv_zero_twist pinv inp.q

/-- Witness for C1: a concrete one-joint controller with zero desired
twist whose cycle yields the zero command vector. -/
theorem zero_twist_yields_zero_command_witness :
    ({ q_dt_cmd := fun _ => 5
       x_dt_des := Twist.Zero
       last_publish_time := 0
       publish_rate := 2 } : CtrlState 1).x_dt_des = Twist.Zero ∧
    (update (ChainIkSolverVel_pinv_givens (n := 1) (fun _ _ _ => 1))
        writeVelocityCommandsPID
        { q_dt_cmd := fun _ => 5
          x_dt_des := Twist.Zero
          last_publish_time := 0
          publish_rate := 2 }
        { time := 1
          period := 1/100
          q := fun _ => 3
          qdot := fun _ => 0
          trylock_ok := true }).state.q_dt_cmd = fun _ => 0 :=
  ⟨rfl, zero_twist_yields_zero_command 1 _ _ _ _ rfl⟩

/-- C3: starting at time t zeroes the whole joint-velocity command buffer,
resets the desired twist to the zero twist whatever was stored before, and
sets the publish gate to t; a following cycle with no new inbound command
computes a zero joint-velocity command (and, with the direct-velocity
writer, writes zeros to the actuator interface). -/
theorem starting_resets_state :
    ∀ (n : ℕ) (s : CtrlState n) (t : ℚ)
      (pinv : JntArray n → Fin n → Fin 6 → ℚ) (writer : CommandWriter n)
      (inp : CycleInput n),
    ((starting s t).q_dt_cmd = fun _ => 0) ∧
    ((starting s t).x_dt_des = Twist.Zero) ∧
    ((starting s t).last_publish_time = t) ∧
    ((update (ChainIkSolverVel_pinv_givens pinv) writer
        (starting s t) inp).state.q_dt_cmd = fun _ => 0) ∧
    ((update (ChainIkSolverVel_pinv_givens pinv) writeVelocityCommandsPID
        (starting s t) inp).commands = fun _ => 0) := by
  intro n s t pinv writer inp
  refine ⟨rfl, rfl, rfl, ?_, ?_⟩
  · rw [update_state_q_dt_cmd]
    exact ik_pinv_zero_twist pinv inp.q
  · rw [update_commands]
    exact ik_pinv_zero_twist pinv inp.q

/-- C4 counterexample: with publish_rate 1, last_publish_time 0 and
now = 1 the claimed eligibility condition now ≥ last + 1/publish_rate
holds, yet the cycle makes no publish attempt — the code gate requires
now to be strictly later. -/
theorem publish_gate_boundary_counterexample :
    (update (ChainIkSolverVel_pinv_givens (n := 1) (fun _ _ _ => 0))
        writeVelocityCommandsPID
        { q_dt_cmd := fun _ => 0
          x_dt_des := Twist.Zero
          last_publish_time := 0
          publish_rate := 1 }
        { time := 1
          period := 0
          q := fun _ => 0
          qdot := fun _ => 0
          trylock_ok := true }).attempted = false ∧
    (0 : ℚ) < 1 ∧ (1 : ℚ) ≥ 0 + 1 / 1 := by
  refine ⟨?_, by norm_num, by norm_num⟩
  have h := update_attempted_iff
    (ChainIkSolverVel_pinv_givens (n := 1) (fun _ _ _ => 0))
    writeVelocityCommandsPID
    { q_dt_cmd := fun _ => 0
      x_dt_des := Twist.Zero
      last_publish_time := 0
      publish_rate := 1 }
    { time := 1
      period := 0
      q := fun _ => 0
      qdot := fun _ => 0
      trylock_ok := true }
  refine Bool.eq_false_iff.mpr (fun hT => ?_)
  have hc := h.mp hT
  norm_num at hc

/-- C4 amended: a telemetry publish is attempted in a cycle if and only if
publish_rate > 0 and now is strictly later than
last_published + 1/publish_rate (at exact equality no attempt is made). -/
theorem publish_attempt_iff_strictly_late :
    ∀ (n : ℕ) (solver : IkVelSolver n) (writer : CommandWriter n)
      (s : CtrlState n) (inp : CycleInput n),
    (update solver writer s inp).attempted = true ↔
      0 < s.publish_rate ∧ s.last_publish_time + 1 / s.publish_rate < inp.time :=
  fun _ solver writer s inp => update_attempted_iff solver writer s inp

/-- C5: in an eligible cycle, a successful trylock advances the publish
gate by exactly 1/publish_rate (not to the current time) and publishes,
while a busy channel leaves the gate unchanged and publishes nothing. -/
theorem publish_advance_or_skip :
    ∀ (n : ℕ) (solver : IkVelSolver n) (writer : CommandWriter n)
      (s : CtrlState n) (inp : CycleInput n),
    0 < s.publish_rate →
    s.last_publish_time + 1 / s.publish_rate < inp.time →
    ((inp.trylock_ok = true →
        (update solver writer s inp).state.last_publish_time
          = s.last_publish_time + 1 / s.publish_rate ∧
        (update solver writer s inp).published = true) ∧
     (inp.trylock_ok = false →
        (update solver writer s inp).state.last_publish_time
          = s.last_publish_time ∧
        (update solver writer s inp).published = false)) := by
  intro n solver writer s inp h1 h2
  have hc : 0 < s.publish_rate ∧
      s.last_publish_time + 1 / s.publish_rate < inp.time := ⟨h1, h2⟩
  refine ⟨fun ht => ?_, fun ht => ?_⟩ <;>
  · unfold update
    dsimp only
    rw [if_pos hc, ht]
    exact ⟨rfl, rfl⟩

/-- Witness for C5: a concrete eligible cycle with a free publish channel
advances the gate from 0 to 1 and publishes. -/
theorem publish_advance_or_skip_witness :
    (0 : ℚ) < 1 ∧ (0 : ℚ) + 1 / 1 < 2 ∧
    ((update (ChainIkSolverVel_pinv_givens (n := 1) (fun _ _ _ => 0))
        writeVelocityCommandsPID
        { q_dt_cmd := fun _ => 0
          x_dt_des := Twist.Zero
          last_publish_time := 0
          publish_rate := 1 }
        { time := 2
          period := 0
          q := fun _ => 0
          qdot := fun _ => 0
          trylock_ok := true }).state.last_publish_time = 0 + 1 / 1 ∧
     (update (ChainIkSolverVel_pinv_givens (n := 1) (fun _ _ _ => 0))
        writeVelocityCommandsPID
        { q_dt_cmd := fun _ => 0
          x_dt_des := Twist.Zero
          last_publish_time := 0
          publish_rate := 1 }
        { time := 2
          period := 0
          q := fun _ => 0
          qdot := fun _ => 0
          trylock_ok := true }).published = true) :=
  ⟨by norm_num, by norm_num,
   (publish_advance_or_skip 1 _ _ _ _ (by norm_num) (by norm_num)).1 rfl⟩

/-- C6: with a non-positive publish_rate no cycle attempts or performs any
telemetry publication, and the rate and gate state are left unchanged, so
telemetry stays disabled forever. -/
theorem telemetry_disabled_nonpositive_rate :
    ∀ (n : ℕ) (solver : IkVelSolver n) (writer : CommandWriter n)
      (s : CtrlState n) (inp : CycleInput n),
    s.publish_rate ≤ 0 →
    (update solver writer s inp).published = false ∧
    (update solver writer s inp).attempted = false ∧
    (update solver writer s inp).state.publish_rate = s.publish_rate ∧
    (update solver writer s inp).state.last_publish_time = s.last_publish_time := by
  intro n solver writer s inp h
  have hc : ¬(0 < s.publish_rate ∧
      s.last_publish_time + 1 / s.publish_rate < inp.time) :=
    fun hpos => absurd hpos.1 (not_lt.mpr h)
  unfold update
  dsimp only
  rw [if_neg hc]
  exact ⟨rfl, rfl, rfl, rfl⟩

/-- Witness for C6: a concrete cycle with publish_rate 0 publishes
nothing and leaves the gate untouched. -/
theorem telemetry_disabled_nonpositive_rate_witness :
    (0 : ℚ) ≤ 0 ∧
    ((update (ChainIkSolverVel_pinv_givens (n := 1) (fun _ _ _ => 0))
        writeVelocityCommandsPID
        { q_dt_cmd := fun _ => 0
          x_dt_des := Twist.Zero
          last_publish_time := 0
          publish_rate := 0 }
        { time := 100
          period := 0
          q := fun _ => 0
          qdot := fun _ => 0
          trylock_ok := true }).published = false ∧
     (update (ChainIkSolverVel_pinv_givens (n := 1) (fun _ _ _ => 0))
        writeVelocityCommandsPID
        { q_dt_cmd := fun _ => 0
          x_dt_des := Twist.Zero
          last_publish_time := 0
          publish_rate := 0 }
        { time := 100
          period := 0
          q := fun _ => 0
          qdot := fun _ => 0
          trylock_ok := true }).attempted = false) :=
  ⟨le_refl 0,
   (telemetry_disabled_nonpositive_rate 1 _ _ _ _ (le_refl 0)).1,
   (telemetry_disabled_nonpositive_rate 1 _ _ _ _ (le_refl 0)).2.1⟩

/-- A concrete inbound twist message with six pairwise different
components, used to exhibit a torn read of the desired twist. -/
def tornMsg : Twist := ⟨![1, 2, 3], ![4, 5, 6]⟩

/-- C8 fails on the code: the callback assigns the six twist components
one at a time with no synchronization, so a cycle read interleaved after
the three linear assignments observes the new linear components together
with the old angular ones — a value equal to neither the fully-old nor
the fully-new twist. -/
theorem torn_twist_read :
    (command_cart_vel_firstK tornMsg 3 Twist.Zero ≠ Twist.Zero) ∧
    (command_cart_vel_firstK tornMsg 3 Twist.Zero
      ≠ command_cart_vel tornMsg Twist.Zero) ∧
    ((command_cart_vel_firstK tornMsg 3 Twist.Zero).vel = tornMsg.vel) ∧
    ((command_cart_vel_firstK tornMsg 3 Twist.Zero).rot = Twist.Zero.rot) := by
  decide

end UR5e
